import Mathlib

/-!
Verification of the timed voice-driven assessment session controller of the
AptiPro aptitude-learning application.  The definitions below are a shallow
embedding of the `VoiceTest` React component and of the Gemini service layer
(`evaluateSpokenAnswer`, `generateVoiceTestQuestions`): React `useState` cells
become fields of an explicit `SessionState` record, each event handler becomes
a state-transformation function, and the browser's interval timer is modelled
by a set of live interval identifiers plus the component's single interval
reference.  External calls (the AI evaluator, speech events) are parameters of
the corresponding events.
-/

namespace AptiPro

/-- `VoiceQuestion` from `types.ts`: a prompt and its expected answer. -/
structure VoiceQuestion where
  question : String
  answer : String
deriving DecidableEq, Repr

/-- The `{isCorrect, feedback}` record produced by answer evaluation. -/
structure EvalResult where
  isCorrect : Bool
  feedback : String
deriving DecidableEq, Repr

/-- Does `xs` occur as a leading run of `ys`?  (Helper for JavaScript's
`String.prototype.includes`.) -/
def takesPre : List Char → List Char → Bool
  | [], _ => true
  | _ :: _, [] => false
  | a :: as, b :: bs => a == b && takesPre as bs

/-- Does `needle` occur contiguously anywhere inside `hay`? -/
def subList : List Char → List Char → Bool
  | needle, [] => takesPre needle []
  | needle, b :: bs => takesPre needle (b :: bs) || subList needle bs

/-- JavaScript `s.includes(sub)`: substring containment. -/
def jsIncludes (s sub : String) : Bool := subList sub.data s.data

/-- Feedback returned by `evaluateSpokenAnswer` when no API key is set. -/
def unavailableFeedback : String := "AI evaluation is unavailable."

/-- Fallback feedback naming the expected answer, from `geminiService.ts`. -/
def fallbackWrongFeedback (correctAnswer : String) : String :=
  "Sorry, an error occurred during evaluation. The expected answer is similar to \""
    ++ correctAnswer ++ "\"."

/-- `evaluateSpokenAnswer` from `geminiService.ts`.  `apiKeySet` models the
`API_KEY` check; `serviceResult` is the outcome of the external Gemini call
(`some r` when it succeeds with parsed result `r`, `none` when it throws). -/
def evaluateSpokenAnswer (apiKeySet : Bool) (serviceResult : Option EvalResult)
    (_question correctAnswer spokenAnswer : String) : EvalResult :=
  if !apiKeySet then ⟨false, unavailableFeedback⟩
  else
    match serviceResult with
    | some r => r
    | none =>
      if jsIncludes spokenAnswer.toLower correctAnswer.toLower then ⟨true, "Correct!"⟩
      else ⟨false, fallbackWrongFeedback correctAnswer⟩

/-- `generateVoiceTestQuestions` from `geminiService.ts`: returns `[]` when the
API key is missing or the external call fails, the fetched list otherwise. -/
def generateVoiceTestQuestions (apiKeySet : Bool)
    (serviceResult : Option (List VoiceQuestion)) : List VoiceQuestion :=
  if apiKeySet then
    match serviceResult with
    | some qs => qs
    | none => []
  else []

/-- The `TestPhase` union type of the `VoiceTest` component. -/
inductive TestPhase where
  | setup
  | loading
  | inProgress
  | evaluating
  | finished
deriving DecidableEq, Repr

/-- `QUESTION_TIME_LIMIT = 30` seconds per question. -/
def QUESTION_TIME_LIMIT : Nat := 30

/-- The state of the `VoiceTest` component: every `useState` cell and `useRef`,
plus bookkeeping for the observable interactions with the browser (live
interval ids, spoken utterances, capture stop requests, external evaluator
calls, alerts). `pendingFinal` records that a speech-recognition session has
been started and may still deliver its final result (the Web Speech API can
deliver a final result even after `stop()` was requested). -/
structure SessionState where
  apiKeySet : Bool
  phase : TestPhase
  questions : List VoiceQuestion
  currentQuestionIndex : Nat
  score : Nat
  timeLeft : Nat
  timerIntervalRef : Option Nat
  activeIntervals : List Nat
  nextIntervalId : Nat
  isListening : Bool
  pendingFinal : Bool
  transcript : String
  isTranscriptFinal : Bool
  evaluationResult : Option EvalResult
  utterancePending : Bool
  spoken : List String
  captureStopRequests : Nat
  evaluatorCalls : Nat
  alertsShown : Nat
deriving DecidableEq, Repr

/-- `stopTimer`: clear the interval held in `timerIntervalRef` (if any) and
null the ref. -/
def stopTimer (s : SessionState) : SessionState :=
  match s.timerIntervalRef with
  | some id =>
    { s with activeIntervals := s.activeIntervals.erase id, timerIntervalRef := none }
  | none => s

/-- `startTimer`: stop any prior interval, reset `timeLeft` to the full limit
and register a fresh interval. -/
def startTimer (s : SessionState) : SessionState :=
  let s1 := stopTimer s
  { s1 with
    timeLeft := QUESTION_TIME_LIMIT,
    timerIntervalRef := some s1.nextIntervalId,
    activeIntervals := s1.nextIntervalId :: s1.activeIntervals,
    nextIntervalId := s1.nextIntervalId + 1 }

/-- The `recognition.stop()` request issued by `handleTimeUp` when listening. -/
def requestCaptureStop (s : SessionState) : SessionState :=
  if s.isListening then
    { s with captureStopRequests := s.captureStopRequests + 1, isListening := false }
  else s

/-- First half of `handleTimeUp`: stop the timer and request capture stop. -/
def handleTimeUpStopped (s : SessionState) : SessionState :=
  requestCaptureStop (stopTimer s)

/-- `handleTimeUp` after its `setPhase('evaluating')` call. -/
def handleTimeUpEvaluating (s : SessionState) : SessionState :=
  { handleTimeUpStopped s with phase := .evaluating }

/-- The locally synthesized time's-up evaluation result. -/
def timeUpResult : EvalResult :=
  ⟨false, "Time's up! You need to be quicker."⟩

/-- `handleTimeUp`: stop timer, request capture stop, pass through the
`evaluating` phase, commit the synthesized result, return to `in-progress`.
No external evaluator call is made. -/
def handleTimeUp (s : SessionState) : SessionState :=
  { handleTimeUpEvaluating s with
    evaluationResult := some timeUpResult, phase := .inProgress }

/-- `questions[currentQuestionIndex]` (total version). -/
def currentQuestion (s : SessionState) : VoiceQuestion :=
  s.questions.getD s.currentQuestionIndex ⟨"", ""⟩

/-- `handleAnswerSubmission(spokenAnswer)`: stop the timer, enter `evaluating`,
await the evaluator (whose external outcome is `serviceResult`), commit the
result, bump the score when correct, and return to `in-progress`. -/
def handleAnswerSubmission (spokenAnswer : String) (serviceResult : Option EvalResult)
    (s : SessionState) : SessionState :=
  let s1 := stopTimer s
  let q := currentQuestion s1
  let result := evaluateSpokenAnswer s1.apiKeySet serviceResult q.question q.answer spokenAnswer
  { s1 with
    phase := .inProgress,
    evaluationResult := some result,
    score := s1.score + (if result.isCorrect then 1 else 0),
    evaluatorCalls := s1.evaluatorCalls + (if s1.apiKeySet then 1 else 0) }

/-- `speak(text)`: cancel the in-flight utterance (the single pending slot is
overwritten) and queue a new one whose `onend` will start the timer. -/
def speakText (text : String) (s : SessionState) : SessionState :=
  { s with utterancePending := true, spoken := text :: s.spoken }

/-- The auto-speak `useEffect`: whenever its dependencies change it speaks the
current question provided the phase is `in-progress`, questions are loaded and
no evaluation result is displayed. -/
def autoSpeakEffect (s : SessionState) : SessionState :=
  if s.phase == .inProgress && !s.questions.isEmpty && s.evaluationResult.isNone then
    speakText (currentQuestion s).question s
  else s

/-- `toggleListening` once its guard has passed: clear transcript/evaluation,
cancel speech playback, start a recognition session. -/
def toggleListening (s : SessionState) : SessionState :=
  { s with
    transcript := "", isTranscriptFinal := false, evaluationResult := none,
    utterancePending := false, isListening := true, pendingFinal := true }

/-- `recognition.onresult` delivering the final transcript `text`: record the
transcript and its finality, and submit it iff it is non-empty. -/
def recognitionOnResult (text : String) (serviceResult : Option EvalResult)
    (s : SessionState) : SessionState :=
  let s1 := { s with
    pendingFinal := false, isListening := false,
    transcript := text, isTranscriptFinal := text != "" }
  if text != "" then handleAnswerSubmission text.trim serviceResult s1 else s1

/-- The retry button is rendered only for an incorrect result with time left. -/
def isRetryAllowed (s : SessionState) : Bool :=
  s.phase == .inProgress
    && (match s.evaluationResult with
        | some r => !r.isCorrect
        | none => false)
    && decide (0 < s.timeLeft)

/-- `retryQuestion`: clear transcript/evaluation, restart the timer at the full
duration, and restart recognition when not already listening. -/
def retryQuestion (s : SessionState) : SessionState :=
  let s1 := { s with transcript := "", isTranscriptFinal := false, evaluationResult := none }
  let s2 := startTimer s1
  if s2.isListening then s2 else { s2 with isListening := true, pendingFinal := true }

/-- `goToNextQuestion`: clear transcript/evaluation, stop the timer, advance
the index or finish. -/
def goToNextQuestion (s : SessionState) : SessionState :=
  let s1 := stopTimer
    { s with transcript := "", isTranscriptFinal := false, evaluationResult := none }
  if s1.currentQuestionIndex < s1.questions.length - 1 then
    { s1 with currentQuestionIndex := s1.currentQuestionIndex + 1 }
  else { s1 with phase := .finished }

/-- `endTest`: stop the timer and move to `finished`.  (The source neither
requests recognition stop nor cancels speech playback here.) -/
def endTest (s : SessionState) : SessionState :=
  { stopTimer s with phase := .finished }

/-- Events that can hit the controller during a session.  External outcomes
(the evaluator's response) travel with the event that consumes them. -/
inductive SessionEvent where
  | tick (intervalId : Nat)
  | speechEnded
  | tapToSpeak
  | recognitionFinal (text : String) (serviceResult : Option EvalResult)
  | recognitionError
  | readAloudAgain
  | retry
  | advance
  | endTestConfirmed
deriving DecidableEq, Repr

/-- One event of the session.  Guards reproduce the source's own guards and
the availability of the corresponding UI control; an event whose guard fails
is a no-op.  Events that change a dependency of the auto-speak effect re-run
it. -/
def sessionStep (e : SessionEvent) (s : SessionState) : SessionState :=
  match e with
  | .tick id =>
    if s.activeIntervals.contains id then
      if s.timeLeft ≤ 1 then { handleTimeUp s with timeLeft := 0 }
      else { s with timeLeft := s.timeLeft - 1 }
    else s
  | .speechEnded =>
    if s.utterancePending then startTimer { s with utterancePending := false } else s
  | .tapToSpeak =>
    if s.phase == .inProgress && !s.isListening
        && s.evaluationResult.isNone && s.timeLeft != 0 then
      toggleListening s
    else s
  | .recognitionFinal t r =>
    if s.pendingFinal then recognitionOnResult t r s else s
  | .recognitionError =>
    if s.isListening || s.pendingFinal then
      { s with isListening := false, pendingFinal := false }
    else s
  | .readAloudAgain =>
    if s.phase == .inProgress && !s.questions.isEmpty then
      speakText (currentQuestion s).question s
    else s
  | .retry => if isRetryAllowed s then autoSpeakEffect (retryQuestion s) else s
  | .advance =>
    if s.phase == .inProgress && s.evaluationResult.isSome then
      autoSpeakEffect (goToNextQuestion s)
    else s
  | .endTestConfirmed => if s.phase == .inProgress then endTest s else s

/-- The component's initial `useState` values. -/
def initialState (apiKeySet : Bool) : SessionState :=
  { apiKeySet := apiKeySet, phase := .setup, questions := [],
    currentQuestionIndex := 0, score := 0, timeLeft := QUESTION_TIME_LIMIT,
    timerIntervalRef := none, activeIntervals := [], nextIntervalId := 0,
    isListening := false, pendingFinal := false, transcript := "",
    isTranscriptFinal := false, evaluationResult := none,
    utterancePending := false, spoken := [], captureStopRequests := 0,
    evaluatorCalls := 0, alertsShown := 0 }

/-- `startTest` up to its `setPhase('loading')` call. -/
def startTestLoading (s : SessionState) : SessionState := { s with phase := .loading }

/-- `startTest` with the generator's result `fetched`: on a non-empty result
set up the session and enter `in-progress` (the auto-speak effect then speaks
question 0); on an empty result show an alert and fall back to `setup`. -/
def startTest (fetched : List VoiceQuestion) (s : SessionState) : SessionState :=
  let sl := startTestLoading s
  if fetched.isEmpty then { sl with alertsShown := sl.alertsShown + 1, phase := .setup }
  else
    autoSpeakEffect
      { sl with
        questions := fetched, currentQuestionIndex := 0, score := 0,
        transcript := "", isTranscriptFinal := false, evaluationResult := none,
        phase := .inProgress }

/-- Run a whole session: start with the generator's result, then process the
event list. -/
def runSession (apiKeySet : Bool) (fetched : List VoiceQuestion)
    (events : List SessionEvent) : SessionState :=
  events.foldl (fun s e => sessionStep e s) (startTest fetched (initialState apiKeySet))

/-- The timer-reference invariant: the live intervals are exactly the one held
in `timerIntervalRef`, and every live interval id is below the id counter. -/
def timerInv (s : SessionState) : Bool :=
  s.activeIntervals == (match s.timerIntervalRef with | some id => [id] | none => [])
    && s.activeIntervals.all (· < s.nextIntervalId)

/-! ## Helper lemmas -/

lemma takesPre_append_self (xs ys : List Char) : takesPre xs (xs ++ ys) = true := by
  induction xs with
  | nil => rfl
  | cons a as ih => simp [takesPre, ih]

lemma subList_here (xs post : List Char) : subList xs (xs ++ post) = true := by
  cases xs with
  | nil => cases post <;> simp [subList, takesPre]
  | cons a as =>
    have h : takesPre (a :: as) ((a :: as) ++ post) = true := takesPre_append_self _ _
    simp only [List.cons_append] at h
    simp [subList, h]

lemma subList_append_left (pre xs post : List Char) :
    subList xs (pre ++ (xs ++ post)) = true := by
  induction pre with
  | nil => simpa using subList_here xs post
  | cons b bs ih => simp [subList, ih]

/-! ## C2: evaluator-failure fallback -/

/-- C2. When the API key is configured and the external evaluation call fails,
`evaluateSpokenAnswer` applies the deterministic local fallback: if the
lowercased expected answer occurs inside the lowercased spoken answer the
result is correct with the generic feedback "Correct!", otherwise it is
incorrect with a feedback string that contains (names) the expected answer. -/
theorem evaluateSpokenAnswer_failure_fallback (q c sp : String) :
    evaluateSpokenAnswer true none q c sp =
      (if jsIncludes sp.toLower c.toLower then ⟨true, "Correct!"⟩
       else ⟨false, fallbackWrongFeedback c⟩)
    ∧ fallbackWrongFeedback c =
        "Sorry, an error occurred during evaluation. The expected answer is similar to \""
          ++ c ++ "\"."
    ∧ jsIncludes (fallbackWrongFeedback c) c = true := by
  refine ⟨rfl, rfl, ?_⟩
  show subList c.data (fallbackWrongFeedback c).data = true
  have h : (fallbackWrongFeedback c).data =
      ("Sorry, an error occurred during evaluation. The expected answer is similar to \"" : String).data
        ++ (c.data ++ ("\"." : String).data) := by
    simp [fallbackWrongFeedback, String.data_append]
  rw [h]
  exact subList_append_left _ _ _

/-! ## C10: missing API key -/

/-- C10. When no API key is configured, `evaluateSpokenAnswer` returns
`isCorrect = false` with feedback "AI evaluation is unavailable." regardless of
the external outcome and of any substring containment — a missing key never
marks an answer correct. -/
theorem evaluateSpokenAnswer_no_key (q c sp : String) (r : Option EvalResult) :
    evaluateSpokenAnswer false r q c sp = ⟨false, unavailableFeedback⟩
    ∧ (evaluateSpokenAnswer false r q c sp).isCorrect = false
    ∧ unavailableFeedback = "AI evaluation is unavailable." :=
  ⟨rfl, rfl, rfl⟩

/-! ## Projection lemmas for the timer primitives -/

@[simp] lemma stopTimer_ref (s : SessionState) : (stopTimer s).timerIntervalRef = none := by
  cases h : s.timerIntervalRef <;> simp [stopTimer, h]

@[simp] lemma stopTimer_phase (s : SessionState) : (stopTimer s).phase = s.phase := by
  cases h : s.timerIntervalRef <;> simp [stopTimer, h]

@[simp] lemma stopTimer_score (s : SessionState) : (stopTimer s).score = s.score := by
  cases h : s.timerIntervalRef <;> simp [stopTimer, h]

@[simp] lemma stopTimer_timeLeft (s : SessionState) : (stopTimer s).timeLeft = s.timeLeft := by
  cases h : s.timerIntervalRef <;> simp [stopTimer, h]

@[simp] lemma stopTimer_questions (s : SessionState) : (stopTimer s).questions = s.questions := by
  cases h : s.timerIntervalRef <;> simp [stopTimer, h]

@[simp] lemma stopTimer_index (s : SessionState) :
    (stopTimer s).currentQuestionIndex = s.currentQuestionIndex := by
  cases h : s.timerIntervalRef <;> simp [stopTimer, h]

@[simp] lemma stopTimer_evalRes (s : SessionState) :
    (stopTimer s).evaluationResult = s.evaluationResult := by
  cases h : s.timerIntervalRef <;> simp [stopTimer, h]

@[simp] lemma stopTimer_evalCalls (s : SessionState) :
    (stopTimer s).evaluatorCalls = s.evaluatorCalls := by
  cases h : s.timerIntervalRef <;> simp [stopTimer, h]

@[simp] lemma stopTimer_listening (s : SessionState) :
    (stopTimer s).isListening = s.isListening := by
  cases h : s.timerIntervalRef <;> simp [stopTimer, h]

@[simp] lemma stopTimer_pendingFinal (s : SessionState) :
    (stopTimer s).pendingFinal = s.pendingFinal := by
  cases h : s.timerIntervalRef <;> simp [stopTimer, h]

@[simp] lemma stopTimer_nextId (s : SessionState) :
    (stopTimer s).nextIntervalId = s.nextIntervalId := by
  cases h : s.timerIntervalRef <;> simp [stopTimer, h]

@[simp] lemma stopTimer_transcript (s : SessionState) :
    (stopTimer s).transcript = s.transcript := by
  cases h : s.timerIntervalRef <;> simp [stopTimer, h]

@[simp] lemma stopTimer_isTranscriptFinal (s : SessionState) :
    (stopTimer s).isTranscriptFinal = s.isTranscriptFinal := by
  cases h : s.timerIntervalRef <;> simp [stopTimer, h]

@[simp] lemma stopTimer_spoken (s : SessionState) : (stopTimer s).spoken = s.spoken := by
  cases h : s.timerIntervalRef <;> simp [stopTimer, h]

@[simp] lemma stopTimer_utterance (s : SessionState) :
    (stopTimer s).utterancePending = s.utterancePending := by
  cases h : s.timerIntervalRef <;> simp [stopTimer, h]

@[simp] lemma stopTimer_stopRequests (s : SessionState) :
    (stopTimer s).captureStopRequests = s.captureStopRequests := by
  cases h : s.timerIntervalRef <;> simp [stopTimer, h]

@[simp] lemma stopTimer_apiKey (s : SessionState) :
    (stopTimer s).apiKeySet = s.apiKeySet := by
  cases h : s.timerIntervalRef <;> simp [stopTimer, h]

@[simp] lemma requestCaptureStop_ref (s : SessionState) :
    (requestCaptureStop s).timerIntervalRef = s.timerIntervalRef := by
  cases h : s.isListening <;> simp [requestCaptureStop, h]

@[simp] lemma requestCaptureStop_phase (s : SessionState) :
    (requestCaptureStop s).phase = s.phase := by
  cases h : s.isListening <;> simp [requestCaptureStop, h]

@[simp] lemma requestCaptureStop_score (s : SessionState) :
    (requestCaptureStop s).score = s.score := by
  cases h : s.isListening <;> simp [requestCaptureStop, h]

@[simp] lemma requestCaptureStop_evalRes (s : SessionState) :
    (requestCaptureStop s).evaluationResult = s.evaluationResult := by
  cases h : s.isListening <;> simp [requestCaptureStop, h]

@[simp] lemma requestCaptureStop_evalCalls (s : SessionState) :
    (requestCaptureStop s).evaluatorCalls = s.evaluatorCalls := by
  cases h : s.isListening <;> simp [requestCaptureStop, h]

@[simp] lemma requestCaptureStop_pendingFinal (s : SessionState) :
    (requestCaptureStop s).pendingFinal = s.pendingFinal := by
  cases h : s.isListening <;> simp [requestCaptureStop, h]

/-! ## C8: start failure leaves no partial session -/

/-- C8. `startTest` first enters `loading`; when the question generator yields
an empty (or error) result, the phase returns to `setup`, a failure alert is
reported to the user, and no partial session is created: questions, question
index, score, transcript and evaluation result are left exactly as they were.
Moreover the generator model returns the empty result both when its external
call fails and when the API key is missing. -/
theorem startTest_failure_no_partial_session (s : SessionState) (k : Bool)
    (qs : List VoiceQuestion) :
    (startTestLoading s).phase = .loading
    ∧ (startTest [] s).phase = .setup
    ∧ (startTest [] s).alertsShown = s.alertsShown + 1
    ∧ (startTest [] s).questions = s.questions
    ∧ (startTest [] s).currentQuestionIndex = s.currentQuestionIndex
    ∧ (startTest [] s).score = s.score
    ∧ (startTest [] s).transcript = s.transcript
    ∧ (startTest [] s).evaluationResult = s.evaluationResult
    ∧ generateVoiceTestQuestions k none = []
    ∧ generateVoiceTestQuestions false (some qs) = [] := by
  refine ⟨rfl, rfl, rfl, rfl, rfl, rfl, rfl, rfl, ?_, rfl⟩
  cases k <;> rfl

/-! ## C3: timeout commits a local result without calling the evaluator -/

/-- C3. When a live timer interval ticks with at most one second left, the
controller runs `handleTimeUp`: the timer is stopped, the phase passes through
`evaluating` and returns to `in-progress`, the locally synthesized result
`isCorrect = false` with time-expired feedback is committed, `timeLeft` becomes
zero, and the external evaluator is never called for this attempt. -/
theorem timeout_commits_local_result (s : SessionState) (id : Nat)
    (hid : s.activeIntervals.contains id = true) (ht : s.timeLeft ≤ 1) :
    (handleTimeUpEvaluating s).phase = .evaluating
    ∧ sessionStep (.tick id) s = { handleTimeUp s with timeLeft := 0 }
    ∧ (sessionStep (.tick id) s).phase = .inProgress
    ∧ (sessionStep (.tick id) s).timerIntervalRef = none
    ∧ (sessionStep (.tick id) s).evaluationResult =
        some ⟨false, "Time's up! You need to be quicker."⟩
    ∧ (sessionStep (.tick id) s).evaluatorCalls = s.evaluatorCalls
    ∧ (sessionStep (.tick id) s).score = s.score
    ∧ (sessionStep (.tick id) s).timeLeft = 0 := by
  have hmem : id ∈ s.activeIntervals := by simpa using hid
  have hstep : sessionStep (.tick id) s = { handleTimeUp s with timeLeft := 0 } := by
    simp [sessionStep, hid, hmem, ht]
  refine ⟨rfl, hstep, ?_, ?_, ?_, ?_, ?_, ?_⟩ <;>
    simp [hstep, handleTimeUp, handleTimeUpEvaluating, handleTimeUpStopped, timeUpResult]

/-- Witness for C3 at a concrete mid-question state: timer interval 0 live,
one second left, the user still listening, no transcript submitted. -/
theorem timeout_commits_local_result_witness :
    (({ initialState true with
          phase := .inProgress,
          questions := [⟨"What is the capital of France?", "Paris"⟩],
          timeLeft := 1, timerIntervalRef := some 0, activeIntervals := [0],
          nextIntervalId := 1, isListening := true,
          pendingFinal := true } : SessionState).activeIntervals.contains 0 = true
        ∧ ({ initialState true with
              phase := .inProgress,
              questions := [⟨"What is the capital of France?", "Paris"⟩],
              timeLeft := 1, timerIntervalRef := some 0, activeIntervals := [0],
              nextIntervalId := 1, isListening := true,
              pendingFinal := true } : SessionState).timeLeft ≤ 1)
    ∧ (sessionStep (.tick 0)
        { initialState true with
          phase := .inProgress,
          questions := [⟨"What is the capital of France?", "Paris"⟩],
          timeLeft := 1, timerIntervalRef := some 0, activeIntervals := [0],
          nextIntervalId := 1, isListening := true,
          pendingFinal := true }).evaluationResult =
        some ⟨false, "Time's up! You need to be quicker."⟩ :=
  ⟨⟨by decide, by decide⟩,
    (timeout_commits_local_result
      { initialState true with
        phase := .inProgress,
        questions := [⟨"What is the capital of France?", "Paris"⟩],
        timeLeft := 1, timerIntervalRef := some 0, activeIntervals := [0],
        nextIntervalId := 1, isListening := true,
        pendingFinal := true } 0 (by decide) (by decide)).2.2.2.2.1⟩

/-! ## C9: timer stop/start algebra -/

/-- C9. Under the timer-reference invariant: `stopTimer` is idempotent and is
the identity when no timer is running; after `stopTimer` no tick event (hence
no timeout callback) can fire any more; and `startTimer` first cancels the
prior interval, so after a restart exactly the one fresh interval is live and
the previously pending interval can never fire again — no duplicate fires. -/
theorem stopTimer_idempotent_cancels (s : SessionState) (hinv : timerInv s = true) :
    stopTimer (stopTimer s) = stopTimer s
    ∧ (s.timerIntervalRef = none → stopTimer s = s)
    ∧ (∀ id, sessionStep (.tick id) (stopTimer s) = stopTimer s)
    ∧ (startTimer s).activeIntervals = [s.nextIntervalId]
    ∧ (∀ oldId, s.timerIntervalRef = some oldId →
        oldId ∉ (startTimer s).activeIntervals) := by
  have h := hinv
  simp only [timerInv, Bool.and_eq_true, beq_iff_eq, List.all_eq_true,
    decide_eq_true_eq] at h
  obtain ⟨hact, hlt⟩ := h
  have hempty : (stopTimer s).activeIntervals = [] := by
    cases href : s.timerIntervalRef with
    | none =>
      rw [href] at hact
      simp [stopTimer, href, hact]
    | some j =>
      rw [href] at hact
      simp [stopTimer, href, hact, List.erase_cons_head]
  refine ⟨?_, ?_, ?_, ?_, ?_⟩
  · cases href : s.timerIntervalRef with
    | none => simp [stopTimer, href]
    | some j => simp [stopTimer, href]
  · intro href
    simp [stopTimer, href]
  · intro id
    simp [sessionStep, hempty]
  · simp [startTimer, hempty]
  · intro oldId href
    have hmem : oldId ∈ s.activeIntervals := by
      rw [hact, href]
      exact List.mem_singleton.mpr rfl
    have hne : oldId ≠ s.nextIntervalId := Nat.ne_of_lt (hlt oldId hmem)
    simp [startTimer, hempty, hne]

/-- Witness for C9 at a concrete running-timer state. -/
theorem stopTimer_idempotent_cancels_witness :
    timerInv { initialState true with
      phase := .inProgress, timerIntervalRef := some 2,
      activeIntervals := [2], nextIntervalId := 3 } = true
    ∧ stopTimer (stopTimer
        { initialState true with
          phase := .inProgress, timerIntervalRef := some 2,
          activeIntervals := [2], nextIntervalId := 3 }) =
      stopTimer
        { initialState true with
          phase := .inProgress, timerIntervalRef := some 2,
          activeIntervals := [2], nextIntervalId := 3 } :=
  ⟨by decide,
    (stopTimer_idempotent_cancels
      { initialState true with
        phase := .inProgress, timerIntervalRef := some 2,
        activeIntervals := [2], nextIntervalId := 3 } (by decide)).1⟩

/-! ## C5: retry behaviour -/

/-- A state right after an incorrect, non-timeout evaluation with 10 s left:
the retry control is available. -/
def retryScenarioState : SessionState :=
  { initialState true with
    phase := .inProgress,
    questions := [⟨"What is 2 + 2?", "4"⟩],
    timeLeft := 10, nextIntervalId := 1,
    transcript := "five", isTranscriptFinal := true,
    evaluationResult := some ⟨false, "Not quite."⟩ }

/-- C5 counterexample. At a state where retry is permitted (incorrect result,
10 s remaining), performing the retry re-speaks the current question: clearing
the evaluation result re-fires the auto-speak effect, so a new utterance of the
question is queued — refuting the claim that retry does not re-speak. -/
theorem retry_respeaks_counterexample :
    isRetryAllowed retryScenarioState = true
    ∧ retryScenarioState.spoken = []
    ∧ (sessionStep .retry retryScenarioState).spoken = ["What is 2 + 2?"]
    ∧ (sessionStep .retry retryScenarioState).utterancePending = true := by
  decide

/-- C5 amended. Retry is permitted only for an incorrect last evaluation with
time remaining; it clears the transcript and evaluation result, restarts the
Timer from the full 30-second duration, restarts speech capture, leaves the
question index (and score) unchanged — and the question IS re-spoken, because
clearing the evaluation result while the phase stays `in-progress` re-fires
the auto-speak effect. -/
theorem retry_restarts_and_respeaks (s : SessionState) (r : EvalResult)
    (hphase : s.phase = .inProgress) (hres : s.evaluationResult = some r)
    (hcorr : r.isCorrect = false) (htime : 0 < s.timeLeft)
    (hlisten : s.isListening = false) (hq : s.questions ≠ []) :
    (sessionStep .retry s).transcript = ""
    ∧ (sessionStep .retry s).isTranscriptFinal = false
    ∧ (sessionStep .retry s).evaluationResult = none
    ∧ (sessionStep .retry s).timeLeft = QUESTION_TIME_LIMIT
    ∧ (sessionStep .retry s).timerIntervalRef = some s.nextIntervalId
    ∧ (sessionStep .retry s).currentQuestionIndex = s.currentQuestionIndex
    ∧ (sessionStep .retry s).score = s.score
    ∧ (sessionStep .retry s).isListening = true
    ∧ (sessionStep .retry s).pendingFinal = true
    ∧ (sessionStep .retry s).spoken = (currentQuestion s).question :: s.spoken := by
  have hqe : s.questions.isEmpty = false := by
    cases h : s.questions with
    | nil => exact absurd h hq
    | cons a l => rfl
  have hallow : isRetryAllowed s = true := by
    simp [isRetryAllowed, hphase, hres, hcorr, htime]
  refine ⟨?_, ?_, ?_, ?_, ?_, ?_, ?_, ?_, ?_, ?_⟩ <;>
    simp [sessionStep, hallow, retryQuestion, startTimer, autoSpeakEffect, speakText,
      currentQuestion, hphase, hres, hlisten, hqe]

/-- Witness for C5 at the concrete retry scenario state. -/
theorem retry_restarts_and_respeaks_witness :
    (retryScenarioState.phase = .inProgress
      ∧ retryScenarioState.evaluationResult = some ⟨false, "Not quite."⟩
      ∧ (false : Bool) = false
      ∧ 0 < retryScenarioState.timeLeft
      ∧ retryScenarioState.isListening = false
      ∧ retryScenarioState.questions ≠ [])
    ∧ (sessionStep .retry retryScenarioState).timeLeft = QUESTION_TIME_LIMIT :=
  ⟨⟨by decide, by decide, rfl, by decide, by decide, by decide⟩,
    (retry_restarts_and_respeaks retryScenarioState ⟨false, "Not quite."⟩
      (by decide) (by decide) rfl (by decide) (by decide) (by decide)).2.2.2.1⟩

/-! ## C6: empty final transcript -/

/-- A mid-question state with the timer running and a recognition session that
may still deliver its final result. -/
def emptyFinalScenarioState : SessionState :=
  { initialState true with
    phase := .inProgress,
    questions := [⟨"What is the capital of France?", "Paris"⟩],
    timeLeft := 20, timerIntervalRef := some 0, activeIntervals := [0],
    nextIntervalId := 1, isListening := true, pendingFinal := true }

/-- C6 counterexample. When the final transcript is empty, the code indeed
never submits it to the external evaluator — but contrary to the claim it is
NOT treated like a timeout: no incorrect result is committed (the evaluation
result stays `none`) and the timer keeps running. -/
theorem empty_final_not_committed_counterexample :
    (sessionStep (.recognitionFinal "" none) emptyFinalScenarioState).evaluatorCalls = 0
    ∧ (sessionStep (.recognitionFinal "" none) emptyFinalScenarioState).evaluationResult = none
    ∧ (sessionStep (.recognitionFinal "" none) emptyFinalScenarioState).timerIntervalRef = some 0
    ∧ (sessionStep (.recognitionFinal "" none) emptyFinalScenarioState).score = 0 := by
  decide

/-- C6 amended. An empty final transcript is never submitted to the external
Evaluator, but no evaluation result is committed for it either: score, phase,
evaluation result and the running Timer are all left untouched (so the attempt
is only finalized later, e.g. by the Timer's own timeout), while the capture
session ends without a usable transcript. -/
theorem empty_final_transcript_ignored (s : SessionState) (r : Option EvalResult)
    (hp : s.pendingFinal = true) :
    (sessionStep (.recognitionFinal "" r) s).evaluatorCalls = s.evaluatorCalls
    ∧ (sessionStep (.recognitionFinal "" r) s).evaluationResult = s.evaluationResult
    ∧ (sessionStep (.recognitionFinal "" r) s).score = s.score
    ∧ (sessionStep (.recognitionFinal "" r) s).phase = s.phase
    ∧ (sessionStep (.recognitionFinal "" r) s).timerIntervalRef = s.timerIntervalRef
    ∧ (sessionStep (.recognitionFinal "" r) s).timeLeft = s.timeLeft
    ∧ (sessionStep (.recognitionFinal "" r) s).transcript = ""
    ∧ (sessionStep (.recognitionFinal "" r) s).isTranscriptFinal = false
    ∧ (sessionStep (.recognitionFinal "" r) s).pendingFinal = false
    ∧ (sessionStep (.recognitionFinal "" r) s).isListening = false := by
  refine ⟨?_, ?_, ?_, ?_, ?_, ?_, ?_, ?_, ?_, ?_⟩ <;>
    simp [sessionStep, hp, recognitionOnResult]

/-- Witness for C6 at the concrete mid-question state. -/
theorem empty_final_transcript_ignored_witness :
    emptyFinalScenarioState.pendingFinal = true
    ∧ (sessionStep (.recognitionFinal "" (some ⟨true, "ok"⟩))
        emptyFinalScenarioState).evaluatorCalls =
      emptyFinalScenarioState.evaluatorCalls :=
  ⟨by decide,
    (empty_final_transcript_ignored emptyFinalScenarioState (some ⟨true, "ok"⟩)
      (by decide)).1⟩

/-! ## C1: late transcript after timeout -/

/-- A mid-question state one second before timeout, with a listening capture
session whose final result is still outstanding. -/
def raceScenarioState : SessionState :=
  { initialState true with
    phase := .inProgress,
    questions := [⟨"What is the capital of France?", "Paris"⟩],
    timeLeft := 1, timerIntervalRef := some 0, activeIntervals := [0],
    nextIntervalId := 1, isListening := true, pendingFinal := true }

/-- C1. The Timer fires and commits the synthesized time's-up result (score
still 0); a final transcript then delivered by the capture adapter for the
same question is re-evaluated unconditionally: it OVERWRITES the committed
feedback and increments the committed score — the code has no guard making the
timeout authoritative. -/
theorem late_transcript_overwrites_timeout :
    (sessionStep (.tick 0) raceScenarioState).evaluationResult = some timeUpResult
    ∧ (sessionStep (.tick 0) raceScenarioState).score = 0
    ∧ (sessionStep (.tick 0) raceScenarioState).pendingFinal = true
    ∧ (sessionStep (.recognitionFinal "Paris" (some ⟨true, "Correct!"⟩))
        (sessionStep (.tick 0) raceScenarioState)).evaluationResult =
      some ⟨true, "Correct!"⟩
    ∧ (sessionStep (.recognitionFinal "Paris" (some ⟨true, "Correct!"⟩))
        (sessionStep (.tick 0) raceScenarioState)).score = 1 := by
  decide

/-! ## C7: ending the test -/

/-- A mid-question state with the timer running, the capture adapter
listening (final result outstanding) and an utterance still playing. -/
def endScenarioState : SessionState :=
  { initialState true with
    phase := .inProgress,
    questions := [⟨"What is the capital of France?", "Paris"⟩],
    timeLeft := 20, timerIntervalRef := some 0, activeIntervals := [0],
    nextIntervalId := 1, isListening := true, pendingFinal := true,
    utterancePending := true }

/-- C7. Confirming End Test stops the Timer and moves to `finished`, but the
code requests NO capture stop, cancels NO pending speech playback, and a late
final transcript from the capture adapter is not ignored: it is evaluated,
moves the phase back to `in-progress` and changes the score after the test was
ended. -/
theorem endTest_does_not_cancel_capture :
    (sessionStep .endTestConfirmed endScenarioState).phase = .finished
    ∧ (sessionStep .endTestConfirmed endScenarioState).timerIntervalRef = none
    ∧ (sessionStep .endTestConfirmed endScenarioState).activeIntervals = []
    ∧ (sessionStep .endTestConfirmed endScenarioState).captureStopRequests = 0
    ∧ (sessionStep .endTestConfirmed endScenarioState).isListening = true
    ∧ (sessionStep .endTestConfirmed endScenarioState).utterancePending = true
    ∧ (sessionStep (.recognitionFinal "Paris" (some ⟨true, "Correct!"⟩))
        (sessionStep .endTestConfirmed endScenarioState)).phase = .inProgress
    ∧ (sessionStep (.recognitionFinal "Paris" (some ⟨true, "Correct!"⟩))
        (sessionStep .endTestConfirmed endScenarioState)).score = 1 := by
  decide

/-! ## C4: the score bound -/

/-- A one-question session used to break the score bound. -/
def scoreDemoQuestions : List VoiceQuestion :=
  [⟨"What is the capital of France?", "Paris"⟩]

/-- The user path that scores the single question twice: answer correctly,
press Read Aloud Again and let the restarted timer expire (the timeout
overwrites the correct result with an incorrect one), press Read Aloud Again
once more (its `onend` restarts the timer, so Retry reappears), retry and
answer correctly again. -/
def scoreDemoEvents : List SessionEvent :=
  [.speechEnded, .tapToSpeak,
   .recognitionFinal "Paris" (some ⟨true, "Correct!"⟩),
   .readAloudAgain, .speechEnded]
  ++ List.replicate 30 (.tick 1)
  ++ [.readAloudAgain, .speechEnded, .retry,
      .recognitionFinal "Paris" (some ⟨true, "Correct!"⟩)]

/-- C4. Running the one-question session along `scoreDemoEvents` — every step
of which is an event the UI permits — ends with `score = 2` on a session of
`questionCount = 1`, while the question index never advanced: the same
question was scored twice and the invariant `score ≤ questionCount` is
violated (repeating the loop makes the score grow without bound). -/
theorem score_exceeds_question_count :
    (runSession true scoreDemoQuestions scoreDemoEvents).score = 2
    ∧ (runSession true scoreDemoQuestions scoreDemoEvents).currentQuestionIndex = 0
    ∧ scoreDemoQuestions.length = 1
    ∧ (runSession true scoreDemoQuestions scoreDemoEvents).phase = .inProgress := by
  set_option maxRecDepth 10000 in decide

end AptiPro
